import Mathlib

/-!
Shallow embedding of the ii-agent WebSocket gateway core:
the session/event store (`src/ii_agent/db/manager.py`), the connection
handshake and dispatch loop, task bookkeeping, disconnect cleanup, and the
REST upload / event-listing handlers (`ws_server.py`).

Machine conventions: MongoDB collections are association lists of documents;
`datetime.utcnow()` timestamps are `Nat` values passed in explicitly; Python
`None` is `Option.none`; Python truthiness of strings is `s ≠ ""`.
-/

namespace IIAgent

/-! ## Event store (`DatabaseManager`, `manager.py`) -/

/-- One document of the `events` collection, as written by
`DatabaseManager.save_event`: the Mongo `_id` is modelled as an insertion
counter, `timestamp` as a `Nat`. -/
structure EventDoc where
  mongoId : Nat
  session_id : String
  user_id : String
  device_id : Option String
  event_ts : Nat
  event_type : String
  event_payload : String
deriving Repr, DecidableEq

abbrev EventDB := List EventDoc

/-- Stable insertion of an event into a timestamp-sorted list: the new event
goes after every already-placed event whose key is `≤` its own, which gives
the ties-broken-by-insertion-order behaviour of a stable sort. -/
def insertByTs (asc : Bool) (e : EventDoc) : List EventDoc → List EventDoc
  | [] => [e]
  | f :: rest =>
    if (if asc then f.event_ts ≤ e.event_ts else e.event_ts ≤ f.event_ts)
    then f :: insertByTs asc e rest
    else e :: f :: rest

/-- Stable sort of events by `timestamp` (`.sort("timestamp", order)`). -/
def sortByTs (asc : Bool) (l : List EventDoc) : List EventDoc :=
  l.foldl (fun acc e => insertByTs asc e acc) []

/-- Embeds `DatabaseManager.get_events_for_session` (manager.py lines 173-201):
filter the `events` collection by `session_id` (and by `event_type` when the
filter is truthy, i.e. neither `None` nor the empty string), sort by
`timestamp`, and apply `limit` when it is positive (`0` means unbounded). -/
def get_events_for_session (db : EventDB) (session_id : String)
    (limit : Nat) (ascending : Bool) (event_type_filter : Option String) :
    List EventDoc :=
  let matchesQuery := fun (e : EventDoc) =>
    e.session_id == session_id &&
      (match event_type_filter with
       | some t => if t == "" then true else e.event_type == t
       | none => true)
  let sorted := sortByTs ascending (db.filter matchesQuery)
  if limit > 0 then sorted.take limit else sorted

/-- The names bound at module scope in `ws_server.py` (its `import` lines and
module-level assignments / definitions).  Note that `pymongo` is absent: the
only `import pymongo` in the file is function-local to
`get_sessions_by_device_id` (line 745) and binds no module-level name. -/
def ws_server_module_names : List String :=
  ["os", "argparse", "asyncio", "json", "logging", "uuid", "Path",
   "Dict", "List", "Set", "Any", "load_dotenv", "uvicorn", "FastAPI",
   "WebSocket", "WebSocketDisconnect", "Request", "HTTPException",
   "JSONResponse", "CORSMiddleware", "anyio", "base64", "httpx",
   "asc", "text", "RealtimeEvent", "EventType", "Event", "DEFAULT_MODEL",
   "UPLOAD_FOLDER_NAME", "parse_common_args", "AnthropicFC", "BaseAgent",
   "LLMClient", "WorkspaceManager", "get_client", "enhance_user_prompt",
   "StaticFiles", "FileBasedContextManager", "StandardContextManager",
   "TokenCounter", "DatabaseManager", "get_system_tools", "SYSTEM_PROMPT",
   "MAX_OUTPUT_TOKENS_PER_TURN", "MAX_TURNS", "app", "logger",
   "active_connections", "active_agents", "active_tasks",
   "message_processors", "global_args", "fetch_user_id",
   "websocket_endpoint", "run_agent_async", "cleanup_connection",
   "create_agent_for_connection", "setup_workspace", "main",
   "upload_file_endpoint", "create_workspace_manager_for_connection",
   "get_sessions_by_device_id", "get_session_events"]

/-- The REST handler `get_session_events` (ws_server.py lines 787-822).
Its body evaluates the module-global name `pymongo` (line 800,
`db_manager.get_events_for_session(session_id, sort_order=pymongo.ASCENDING)`).
When that name is bound at module scope the handler delegates to the store
with ascending order, no limit and no type filter; when it is not, Python
raises `NameError`, the blanket `except Exception` catches it, and the
handler re-raises `HTTPException(status_code=500)`. -/
def get_session_events_route (db : EventDB) (session_id : String) :
    Except Nat (List EventDoc) :=
  if ws_server_module_names.contains "pymongo" then
    Except.ok (get_events_for_session db session_id 0 true none)
  else
    Except.error 500

/-! ## Session store (`DatabaseManager.create_session`, manager.py 35-87) -/

/-- One document of the `sessions` collection.  `id` is the Mongo `_id`
(the composite session id), timestamps are `Nat`s. -/
structure SessionDoc where
  id : String
  user_id : String
  device_id : Option String
  workspace_session_uuid : String
  workspace_dir : String
  is_active : Bool
  created_at : Nat
  last_activated_at : Nat
  deactivated_at : Option Nat
deriving Repr, DecidableEq

abbrev SessionDB := List SessionDoc

/-- Step 1 of `create_session`: `update_many` deactivating every currently
active session for this `(user_id, device_id)` pair, stamping
`deactivated_at = now`. -/
def deactivate_pair (now : Nat) (user_id : String) (device_id : Option String)
    (db : SessionDB) : SessionDB :=
  db.map (fun d =>
    if d.user_id == user_id && d.device_id == device_id && d.is_active then
      { d with is_active := false, deactivated_at := some now }
    else d)

/-- The `$set` part of the upsert in step 2 of `create_session`. -/
def session_set_fields (now : Nat) (user_id : String)
    (device_id : Option String) (wsUuid : String) (wsPath : String)
    (d : SessionDoc) : SessionDoc :=
  { d with user_id := user_id, device_id := device_id,
           workspace_session_uuid := wsUuid, workspace_dir := wsPath,
           is_active := true, last_activated_at := now }

/-- Step 2 of `create_session`: `update_one({_id: composite}, ..., upsert=True)`.
`update_one` updates at most one matching document (the first); when none
matches it inserts a fresh document with the `$setOnInsert` fields
(`created_at = now`, `_id = composite`) plus the `$set` fields. -/
def upsert_session (now : Nat) (composite : String) (wsUuid : String)
    (wsPath : String) (user_id : String) (device_id : Option String) :
    SessionDB → SessionDB
  | [] => [{ id := composite, user_id := user_id, device_id := device_id,
             workspace_session_uuid := wsUuid, workspace_dir := wsPath,
             is_active := true, created_at := now, last_activated_at := now,
             deactivated_at := none }]
  | d :: rest =>
    if d.id == composite then
      session_set_fields now user_id device_id wsUuid wsPath d :: rest
    else
      d :: upsert_session now composite wsUuid wsPath user_id device_id rest

/-- Embeds `DatabaseManager.create_session` (manager.py lines 35-87): deactivate the
sibling active sessions of the `(user_id, device_id)` pair, then upsert the
document keyed by the composite session id. -/
def create_session (db : SessionDB) (now : Nat) (composite : String)
    (wsUuid : String) (wsPath : String) (user_id : String)
    (device_id : Option String) : SessionDB :=
  upsert_session now composite wsUuid wsPath user_id device_id
    (deactivate_pair now user_id device_id db)

/-- Is this document an active session for the pair `(u, d)`? -/
def activeFor (u : String) (d : Option String) (doc : SessionDoc) : Bool :=
  doc.user_id == u && doc.device_id == d && doc.is_active

/-- Number of active session documents for the pair `(u, d)`. -/
def countActive (db : SessionDB) (u : String) (d : Option String) : Nat :=
  (db.filter (activeFor u d)).length

/-- Arguments of one `create_session` call. -/
structure CreateSessionCall where
  now : Nat
  composite : String
  wsUuid : String
  wsPath : String
  user_id : String
  device_id : Option String
deriving Repr

/-- Apply one `create_session` call to the store. -/
def applyCreateSession (db : SessionDB) (c : CreateSessionCall) : SessionDB :=
  create_session db c.now c.composite c.wsUuid c.wsPath c.user_id c.device_id

/-! ## Auth gate (`fetch_user_id`, ws_server.py 91-126) -/

/-- Body of the identity service's HTTP response, after `response.json()`:
either the body is not valid JSON (so `response.json()` raises), or it is an
object whose `user_id` field is absent (`none`) or present. -/
inductive JsonBody
  | malformed
  | object (user_id : Option String)
deriving Repr, DecidableEq

/-- Outcome of the `httpx` POST to the identity service: a network /
request-level error (`httpx.RequestError`, which also covers the 10-second
timeout expiry), or a response with a status code and body. -/
inductive HttpResult
  | requestError
  | response (status : Nat) (body : JsonBody)
deriving Repr, DecidableEq

/-- Whether `raise_for_status` raises `httpx.HTTPStatusError`: any non-2xx code. -/
def statusRaises (status : Nat) : Bool :=
  status < 200 || 300 ≤ status

/-- Embeds `fetch_user_id` (ws_server.py 91-126).  The four header values are the
request payload; they do not influence the control flow, which depends only
on the service's reply: request errors, bad status codes, malformed JSON and
a missing (or falsy, i.e. empty) `user_id` all return `None`. -/
def fetch_user_id (_token _api_key _client_key _device_id : Option String)
    (r : HttpResult) : Option String :=
  match r with
  | .requestError => none
  | .response status body =>
    if statusRaises status then none
    else
      match body with
      | .malformed => none
      | .object none => none
      | .object (some uid) => if uid == "" then none else some uid

/-! ## Per-connection runtime state (the module-level maps of ws_server.py) -/

/-- The bound execution context (`AnthropicFC` agent) as the core sees it:
its session binding, whether its `websocket` attribute is set (the delivery
channel), and whether its `_process_messages` task is running. -/
structure Agent where
  sessionId : String
  userId : String
  deviceId : String
  websocketAttached : Bool
  processorRunning : Bool
deriving Repr, DecidableEq

/-- Status of the one background `asyncio.Task` of a connection.
Cancellation is modelled as taking effect at the step that requests it. -/
inductive TaskStatus
  | running
  | cancelled
  | completedOk
  | completedErr
deriving Repr, DecidableEq

/-- Models `asyncio.Task.done()`: true in every terminal state. -/
def TaskStatus.isDone : TaskStatus → Bool
  | .running => false
  | _ => true

/-- The slice of the module-level maps (`active_connections`, `active_agents`,
`message_processors`, `active_tasks`) belonging to one websocket, plus the
agent objects that outlived their map entries (their message processors keep
running after cleanup). -/
structure ConnState where
  inConnections : Bool
  agent : Option Agent
  hasProcessorRef : Bool
  task : Option TaskStatus
  detachedAgents : List Agent
deriving Repr, DecidableEq

/-- Fresh per-connection state right after a successful handshake:
the websocket was added to `active_connections`; no agent, no processor
reference, no task. -/
def initialConnState : ConnState :=
  { inConnections := true, agent := none, hasProcessorRef := false,
    task := none, detachedAgents := [] }

/-- Connection-scoped constants fixed by the handshake. -/
structure ConnCtx where
  userId : String
  deviceId : String
  composite : String
  wsUuid : String
  wsPath : String
deriving Repr, DecidableEq

/-- Connection state plus the shared session store. -/
structure ServerState where
  conn : ConnState
  db : SessionDB
deriving Repr, DecidableEq

/-- Outbound `RealtimeEvent`s the embedded handlers emit. -/
inductive OutEvent
  | error (msg : String)
  | connectionEstablished (workspacePath : String)
  | agentInitialized
  | processing
  | workspaceInfo (path : String)
  | pong
  | system (msg : String)
  | promptGenerated (result original : String)
  | userMessage (msg : String)
deriving Repr, DecidableEq

/-- Ordered effects of one handler run: messages sent on the websocket,
the spawning of a background task (`asyncio.create_task`), an event put on
the agent's message queue, and the agent's actual work. -/
inductive Effect
  | send (e : OutEvent)
  | spawnTask (input : String) (resume : Bool) (files : List String)
  | enqueueEvent (e : OutEvent)
  | runWork
deriving Repr, DecidableEq

/-! ## Handshake (`websocket_endpoint` before the dispatch loop, 129-207) -/

/-- Python truthiness test `if not device_id_header:`. -/
def headerFalsy : Option String → Bool
  | none => true
  | some s => s == ""

/-- Result of the handshake: either the connection was closed after the
listed events, or it reached the dispatch loop with its context and state. -/
inductive HandshakeResult
  | closed (events : List OutEvent)
  | established (ctx : ConnCtx) (s : ServerState) (events : List OutEvent)
deriving Repr, DecidableEq

/-- The four identity headers read at ws_server.py 134-137. -/
structure Headers where
  authorization : Option String
  apiKey : Option String
  clientKey : Option String
  deviceId : Option String
deriving Repr, DecidableEq

/-- Embeds `websocket_endpoint` up to the dispatch loop (ws_server.py 129-207):
accept, resolve identity (abort on failure), require the device header
(abort when falsy), form the composite session id, register the connection,
provision the workspace, and emit `connection_established`.  `auth` is the
identity service's reply; `db` is the session store at connect time, which
the handshake itself never writes. -/
def websocket_handshake (h : Headers) (auth : HttpResult)
    (wsUuid : String) (wsPath : String) (db : SessionDB) : HandshakeResult :=
  match fetch_user_id h.authorization h.apiKey h.clientKey h.deviceId auth with
  | none => .closed [.error "User authentication failed."]
  | some uid =>
    if headerFalsy h.deviceId then
      .closed [.error "X-Device-ID header is required and was not found."]
    else
      let did := h.deviceId.getD ""
      let composite := uid ++ "_" ++ did
      .established
        { userId := uid, deviceId := did, composite := composite,
          wsUuid := wsUuid, wsPath := wsPath }
        { conn := initialConnState, db := db }
        [.connectionEstablished wsPath]

/-! ## Dispatch loop (`websocket_endpoint`, ws_server.py 210-372) -/

/-- One decoded inbound message.  `malformed` is a frame that fails JSON
decoding.  For `enhance_prompt`, the external collaborator's awaited reply
`(success, message, enhanced_prompt)` travels with the message. -/
inductive ClientMsg
  | initAgent
  | query (input : String) (resume : Bool) (files : List String)
  | workspaceInfo
  | ping
  | cancel
  | enhancePrompt (input : String) (files : List String)
      (success : Bool) (message : String) (enhanced : String)
  | unknown (t : String)
  | malformed
deriving Repr, DecidableEq

/-- The guard at ws_server.py 245: `websocket in active_tasks and not
active_tasks[websocket].done()`. -/
def queryBlocked (c : ConnState) : Bool :=
  match c.task with
  | some t => !t.isDone
  | none => false

/-- One iteration of the dispatch loop (ws_server.py 210-372): handle one
decoded message, returning the new state and the ordered effects.  `now` is
the timestamp `datetime.utcnow()` would produce during this iteration. -/
def handleMessage (now : Nat) (ctx : ConnCtx) (s : ServerState)
    (m : ClientMsg) : ServerState × List Effect :=
  match m with
  | .initAgent =>
    -- create_agent_for_connection (475-539): create_session on the store,
    -- then register the agent, start its message processor, send the ack.
    let agent : Agent :=
      { sessionId := ctx.composite, userId := ctx.userId,
        deviceId := ctx.deviceId, websocketAttached := true,
        processorRunning := true }
    let db := create_session s.db now ctx.composite ctx.wsUuid ctx.wsPath
      ctx.userId (some ctx.deviceId)
    ({ conn := { s.conn with agent := some agent, hasProcessorRef := true },
       db := db },
     [.send .agentInitialized])
  | .query input resume files =>
    if queryBlocked s.conn then
      (s, [.send (.error "A query is already being processed")])
    else
      -- ack first (262), then asyncio.create_task (270) recorded at 273
      ({ s with conn := { s.conn with task := some .running } },
       [.send .processing, .spawnTask input resume files])
  | .workspaceInfo =>
    -- after the handshake workspace_manager is always set, so the truthy
    -- branch (277-285) runs
    (s, [.send (.workspaceInfo ctx.wsPath)])
  | .ping =>
    (s, [.send .pong])
  | .cancel =>
    match s.conn.task with
    | some t =>
      if t.isDone then (s, [.send (.error "No active query to cancel")])
      else
        ({ s with conn := { s.conn with task := some .cancelled } },
         [.send (.system "Query canceled")])
    | none => (s, [.send (.error "No active query to cancel")])
  | .enhancePrompt input _files success message enhanced =>
    if success && enhanced != "" then
      (s, [.send (.promptGenerated enhanced input)])
    else
      (s, [.send (.error message)])
  | .unknown t =>
    (s, [.send (.error ("Unknown message type: " ++ t))])
  | .malformed =>
    (s, [.send (.error "Invalid JSON format")])

/-- Embeds `run_agent_async` (ws_server.py 384-421), run to completion.  With no
agent bound it sends the error and returns *before* the `try`, so the
`finally` never deletes the `active_tasks` entry; the coroutine still
finishes, so the recorded task becomes done.  With an agent bound it
enqueues the user message, runs the agent's work, and the `finally` removes
the task entry.  The `Bool` reports whether agent work ran. -/
def run_agent_async (s : ServerState) (user_input : String) :
    ServerState × List Effect × Bool :=
  match s.conn.agent with
  | none =>
    ({ s with conn :=
        { s.conn with task := s.conn.task.map (fun _ => .completedOk) } },
     [.send (.error "Agent not initialized for this connection")], false)
  | some _ =>
    ({ s with conn := { s.conn with task := none } },
     [.enqueueEvent (.userMessage user_input), .runWork], true)

/-! ## Disconnect cleanup (`cleanup_connection`, ws_server.py 424-447) -/

/-- Embeds `cleanup_connection`: remove the websocket from `active_connections`;
if an agent is bound, null its `websocket` attribute and drop the
`message_processors` reference without cancelling the processor; cancel a
still-running task and delete its entry; finally delete the agent entry
(the agent object, with its processor, lives on in `detachedAgents`).
The second component is the task handle `.cancel()` was called on, if any. -/
def cleanup_connection (s : ConnState) : ConnState × Option TaskStatus :=
  let s1 := { s with inConnections := false }
  let s2 :=
    match s1.agent with
    | some a =>
      { s1 with agent := some { a with websocketAttached := false },
                hasProcessorRef := false }
    | none => s1
  let step3 : ConnState × Option TaskStatus :=
    match s2.task with
    | some .running => ({ s2 with task := none }, some .cancelled)
    | _ => (s2, none)
  let s3 := step3.1
  let s4 :=
    match s3.agent with
    | some a =>
      { s3 with agent := none, detachedAgents := s3.detachedAgents ++ [a] }
    | none => s3
  (s4, step3.2)

/-! ## Upload endpoint (`upload_file_endpoint`, ws_server.py 590-691) -/

/-- Modelled from the spec: `UPLOAD_FOLDER_NAME` comes from
`ii_agent.utils.constants`, which is not under `src/`; the spec only calls
it "the session's upload area".  Every property proved below is invariant
under its exact value. -/
def UPLOAD_FOLDER_NAME : String := "uploads"

/-- Split a character list at every occurrence of `sep`. -/
def splitChars (sep : Char) : List Char → List Char → List (List Char)
  | [], acc => [acc.reverse]
  | c :: cs, acc =>
    if c = sep then acc.reverse :: splitChars sep cs []
    else splitChars sep cs (c :: acc)

/-- The `pathlib` parse of a path string into components: empty components
(duplicate slashes) and `.` components are dropped, `..` is kept. -/
def pathComponents (s : String) : List String :=
  ((splitChars '/' s.data []).map String.mk).filter
    (fun c => c ≠ "" && c ≠ ".")

/-- Models `Path(p).is_absolute()` on POSIX. -/
def isAbsolutePath (s : String) : Bool :=
  match s.data with
  | '/' :: _ => true
  | _ => false

/-- Models `Path(p).name`: the final component (empty for the root). -/
def pathName (s : String) : String :=
  (pathComponents s).getLastD ""

/-- OS-level resolution of an absolute component list: `..` pops the last
component (a no-op at the root), as the kernel does when the path is opened. -/
def resolveComps (comps : List String) : List String :=
  comps.foldl (fun acc c => if c = ".." then acc.dropLast else acc ++ [c]) []

/-- Models `pathlib`'s stem/suffix split of a file name: the suffix starts at the
rightmost dot provided it is neither the first nor past the last character
(so `.bashrc` and `report.` have an empty suffix). -/
def splitStemSuffix (name : String) : String × String :=
  let cs := name.toList
  let dotIdxs := (List.range cs.length).filter (fun i => cs.getD i ' ' = '.')
  match dotIdxs.getLast? with
  | some i =>
    if 0 < i ∧ i + 1 < cs.length then
      (String.mk (cs.take i), String.mk (cs.drop i))
    else (name, "")
  | none => (name, "")

/-- What gets written (ws_server.py 659-674): a `data:` URL is split at its
first comma and the base64 payload decoded and written binary; anything else
is written as text.  The decoded bytes are represented by their base64 text
(the decode is injective, so equality of stored values is preserved). -/
inductive FileData
  | binary (b64 : String)
  | text (s : String)
deriving Repr, DecidableEq

/-- Everything after the first comma (the `encoded` half of
`file_content.split(",", 1)`). -/
def afterFirstComma : List Char → List Char
  | [] => []
  | c :: cs => if c = ',' then cs else afterFirstComma cs

/-- Models the `file_content.startswith("data:")` dispatch plus `split(",", 1)`.
(A `data:` body with no comma makes the Python unpacking raise
`ValueError`, answered 500 by the blanket handler; no claim reaches
that edge and it is not modelled.) -/
def parseContent (content : String) : FileData :=
  if "data:".data.isPrefixOf content.data then
    .binary (String.mk (afterFirstComma content.data))
  else .text content

/-- The filesystem as a map from OS-resolved absolute component lists to
stored file data. -/
abbrev FileSys := List (List String × FileData)

/-- Models `Path.exists()` on a resolved path. -/
def fsHas (fs : FileSys) (rp : List String) : Bool :=
  fs.any (fun e => e.1 == rp)

/-- Models `open(path, "w"/"wb").write(...)`: overwrite or create. -/
def fsWrite (fs : FileSys) (rp : List String) (data : FileData) : FileSys :=
  if fsHas fs rp then
    fs.map (fun e => if e.1 == rp then (rp, data) else e)
  else fs ++ [(rp, data)]

/-- The collision loop of ws_server.py 648-651: the first counter `n ≥ start`
for which `upload_dir / (stem_n ++ suffix)` does not exist.  `fuel` bounds
the search; `fs.length + 1` candidates always contain a free one. -/
def findFreeCounter (fs : FileSys) (upload_dir : List String)
    (stem sfx : String) : Nat → Nat → Nat
  | 0, n => n
  | fuel + 1, n =>
    let cand := stem ++ "_" ++ toString n ++ sfx
    if fsHas fs (resolveComps (upload_dir ++ [cand])) then
      findFreeCounter fs upload_dir stem sfx fuel (n + 1)
    else n

/-- The write phase of `upload_file_endpoint` (ws_server.py 633-674), after
the request-validation guards: collapse an absolute path to its base name;
join the (relative) path verbatim under the upload directory; on collision
append `_counter` before the extension of the path's final component until
the name is unique (the fresh name is placed directly in `upload_dir`);
create intermediate directories; write the content.  Returns the new
filesystem and the resolved path written. -/
def upload_file (fs : FileSys) (upload_dir : List String)
    (file_path : String) (content : String) : FileSys × List String :=
  let fp := if isAbsolutePath file_path then pathName file_path else file_path
  let comps := upload_dir ++ pathComponents fp
  let resolved := resolveComps comps
  let target :=
    if fsHas fs resolved then
      let last := comps.getLastD ""
      let ss := splitStemSuffix last
      let n := findFreeCounter fs upload_dir ss.1 ss.2 (fs.length + 1) 1
      resolveComps (upload_dir ++ [ss.1 ++ "_" ++ toString n ++ ss.2])
    else resolved
  (fsWrite fs target (parseContent content), target)

/-! ## Shared sample values used by witnesses -/

/-- A connection context as produced by a successful handshake for user
`u1` on device `dev1`. -/
def sampleCtx : ConnCtx :=
  { userId := "u1", deviceId := "dev1", composite := "u1_dev1",
    wsUuid := "wsid", wsPath := "/w/root" }

/-- A connection with a task currently running and no agent bound. -/
def runningTaskState : ServerState :=
  { conn := { initialConnState with task := some .running }, db := [] }

/-- A fresh post-handshake connection over an empty store. -/
def freshState : ServerState :=
  { conn := initialConnState, db := [] }

/-- Helper: an accepted `query` (guard false) acknowledges, spawns, and
records the running task. -/
theorem handleMessage_query_accepted (now : Nat) (ctx : ConnCtx)
    (s : ServerState) (input : String) (resume : Bool) (files : List String)
    (hfree : queryBlocked s.conn = false) :
    handleMessage now ctx s (.query input resume files)
      = ({ s with conn := { s.conn with task := some .running } },
         [.send .processing, .spawnTask input resume files]) := by
  simp [handleMessage, hfree]

/-! ## Claim theorems -/

/-- C1: the claim says `GET /api/sessions/{session_id}/events` succeeds and
returns the session's events ascending by timestamp.  In fact the handler
body evaluates the unbound module-global `pymongo` (only imported locally
inside `get_sessions_by_device_id`), so every request raises `NameError`
and is answered with HTTP 500, for every store and session key. -/
theorem get_session_events_route_always_500 (db : EventDB)
    (session_id : String) :
    get_session_events_route db session_id = Except.error 500 := by
  have h : ws_server_module_names.contains "pymongo" = false := by decide
  unfold get_session_events_route
  rw [h]
  rfl

/-- C4: dispatching `query` while the connection's recorded task is not yet
terminal emits exactly one `error` event with message "A query is already
being processed", spawns nothing, and leaves the state (task and all
bookkeeping) unchanged. -/
theorem query_conflict_rejected (now : Nat) (ctx : ConnCtx) (s : ServerState)
    (input : String) (resume : Bool) (files : List String) (t : TaskStatus)
    (ht : s.conn.task = some t) (hrun : t.isDone = false) :
    handleMessage now ctx s (.query input resume files)
      = (s, [.send (.error "A query is already being processed")]) := by
  have hb : queryBlocked s.conn = true := by
    simp [queryBlocked, ht, hrun]
  simp [handleMessage, hb]

/-- Witness for C4 at a connection whose task is `running`. -/
theorem query_conflict_rejected_witness :
    handleMessage 0 sampleCtx runningTaskState (.query "hi" false [])
      = (runningTaskState,
         [.send (.error "A query is already being processed")]) :=
  query_conflict_rejected 0 sampleCtx runningTaskState "hi" false []
    .running rfl rfl

/-- C7: for an accepted `query` (no task in flight) the handler's ordered
effect list is exactly `[send processing, spawnTask ...]` — the
acknowledgment is emitted strictly before the task is spawned — and the
spawned task is then recorded as the connection's running task. -/
theorem processing_ack_before_task_spawn (now : Nat) (ctx : ConnCtx)
    (s : ServerState) (input : String) (resume : Bool) (files : List String)
    (hfree : queryBlocked s.conn = false) :
    (handleMessage now ctx s (.query input resume files)).2
        = [.send .processing, .spawnTask input resume files]
    ∧ (handleMessage now ctx s (.query input resume files)).1
        = { s with conn := { s.conn with task := some .running } } := by
  simp [handleMessage, hfree]

/-- Witness for C7 at a fresh connection. -/
theorem processing_ack_before_task_spawn_witness :
    (handleMessage 0 sampleCtx freshState (.query "hi" false [])).2
        = [.send .processing, .spawnTask "hi" false []]
    ∧ (handleMessage 0 sampleCtx freshState (.query "hi" false [])).1
        = { freshState with
            conn := { freshState.conn with task := some .running } } :=
  processing_ack_before_task_spawn 0 sampleCtx freshState "hi" false [] rfl

/-- C10: a `query` dispatched before any `init_agent` (no task in flight) is
acknowledged and spawns a task; that task emits the error "Agent not
initialized for this connection" and terminates having run no work and
leaving the store untouched; afterwards the connection accepts the next
`query` (the leftover task entry is done, so the guard passes). -/
theorem query_before_init_agent (now : Nat) (ctx : ConnCtx) (s : ServerState)
    (input : String) (resume : Bool) (files : List String)
    (hagent : s.conn.agent = none) (hfree : queryBlocked s.conn = false) :
    (handleMessage now ctx s (.query input resume files)).2
        = [.send .processing, .spawnTask input resume files]
    ∧ (run_agent_async (handleMessage now ctx s
          (.query input resume files)).1 input).2.1
        = [.send (.error "Agent not initialized for this connection")]
    ∧ (run_agent_async (handleMessage now ctx s
          (.query input resume files)).1 input).2.2 = false
    ∧ (run_agent_async (handleMessage now ctx s
          (.query input resume files)).1 input).1.db = s.db
    ∧ queryBlocked (run_agent_async (handleMessage now ctx s
          (.query input resume files)).1 input).1.conn = false
    ∧ (handleMessage now ctx (run_agent_async (handleMessage now ctx s
          (.query input resume files)).1 input).1
          (.query input resume files)).2
        = [.send .processing, .spawnTask input resume files] := by
  rw [handleMessage_query_accepted now ctx s input resume files hfree]
  simp [handleMessage, run_agent_async, queryBlocked, hagent,
        TaskStatus.isDone]

/-- Witness for C10 at a fresh (agent-less) connection. -/
theorem query_before_init_agent_witness :
    (handleMessage 0 sampleCtx freshState (.query "hi" false [])).2
        = [.send .processing, .spawnTask "hi" false []]
    ∧ (run_agent_async (handleMessage 0 sampleCtx freshState
          (.query "hi" false [])).1 "hi").2.1
        = [.send (.error "Agent not initialized for this connection")]
    ∧ (run_agent_async (handleMessage 0 sampleCtx freshState
          (.query "hi" false [])).1 "hi").2.2 = false
    ∧ (run_agent_async (handleMessage 0 sampleCtx freshState
          (.query "hi" false [])).1 "hi").1.db = freshState.db
    ∧ queryBlocked (run_agent_async (handleMessage 0 sampleCtx freshState
          (.query "hi" false [])).1 "hi").1.conn = false
    ∧ (handleMessage 0 sampleCtx (run_agent_async (handleMessage 0 sampleCtx
          freshState (.query "hi" false [])).1 "hi").1
          (.query "hi" false [])).2
        = [.send .processing, .spawnTask "hi" false []] :=
  query_before_init_agent 0 sampleCtx freshState "hi" false [] rfl rfl

/-- C6: when the identity resolver's HTTP call hits an error status, a
request/network error, a malformed response body, or a response lacking the
`user_id` field, `fetch_user_id` returns `None`, and the handshake then
emits the single error "User authentication failed." and closes the
connection. -/
theorem identity_failure_collapses (h : Headers) (r : HttpResult)
    (wsUuid wsPath : String) (db : SessionDB)
    (hr : r = .requestError
        ∨ (∃ st b, r = .response st b ∧ 400 ≤ st)
        ∨ (∃ st, r = .response st .malformed)
        ∨ (∃ st, r = .response st (.object none))) :
    fetch_user_id h.authorization h.apiKey h.clientKey h.deviceId r = none
    ∧ websocket_handshake h r wsUuid wsPath db
        = .closed [.error "User authentication failed."] := by
  have hf : fetch_user_id h.authorization h.apiKey h.clientKey h.deviceId r
      = none := by
    rcases hr with rfl | ⟨st, b, rfl, hst⟩ | ⟨st, rfl⟩ | ⟨st, rfl⟩
    · rfl
    · have hs : statusRaises st = true := by
        simp [statusRaises]
        omega
      simp [fetch_user_id, hs]
    · cases hs : statusRaises st <;> simp [fetch_user_id, hs]
    · cases hs : statusRaises st <;> simp [fetch_user_id, hs]
  exact ⟨hf, by simp [websocket_handshake, hf]⟩

/-- Witness for C6 at an HTTP 500 reply that even carries a `user_id`. -/
theorem identity_failure_collapses_witness :
    fetch_user_id (some "tok") none none (some "dev1")
        (.response 500 (.object (some "u1"))) = none
    ∧ websocket_handshake ⟨some "tok", none, none, some "dev1"⟩
        (.response 500 (.object (some "u1"))) "wsid" "/w/root" []
        = .closed [.error "User authentication failed."] :=
  identity_failure_collapses ⟨some "tok", none, none, some "dev1"⟩
    (.response 500 (.object (some "u1"))) "wsid" "/w/root" []
    (Or.inr (Or.inl ⟨500, .object (some "u1"), rfl, by decide⟩))

/-- C8: uploading `report.pdf` twice into the same session's upload area
stores the second file as `report_1.pdf` (numeric suffix before the
extension) and leaves the first file's content untouched. -/
theorem upload_report_pdf_twice :
    (upload_file
        (upload_file [] ["ws", "sess1", UPLOAD_FOLDER_NAME]
            "report.pdf" "v1").1
        ["ws", "sess1", UPLOAD_FOLDER_NAME] "report.pdf" "v2").2
      = ["ws", "sess1", UPLOAD_FOLDER_NAME, "report_1.pdf"]
    ∧ (upload_file
        (upload_file [] ["ws", "sess1", UPLOAD_FOLDER_NAME]
            "report.pdf" "v1").1
        ["ws", "sess1", UPLOAD_FOLDER_NAME] "report.pdf" "v2").1
      = [(["ws", "sess1", UPLOAD_FOLDER_NAME, "report.pdf"], .text "v1"),
         (["ws", "sess1", UPLOAD_FOLDER_NAME, "report_1.pdf"], .text "v2")]
    := by
  constructor <;> rfl

/-- C9: the sanitization collapses an absolute path to its base filename,
but every relative path is joined verbatim under the upload directory
(collision-free case shown); consequently the relative path
`../escape.txt` is written to `ws/sess1/escape.txt`, outside the upload
area `ws/sess1/uploads`. -/
theorem upload_relative_path_traversal :
    (∀ fs dir fp content, isAbsolutePath fp = true →
        fsHas fs (resolveComps (dir ++ pathComponents (pathName fp)))
            = false →
        (upload_file fs dir fp content).2
          = resolveComps (dir ++ pathComponents (pathName fp)))
    ∧ (∀ fs dir fp content, isAbsolutePath fp = false →
        fsHas fs (resolveComps (dir ++ pathComponents fp)) = false →
        (upload_file fs dir fp content).2
          = resolveComps (dir ++ pathComponents fp))
    ∧ (upload_file [] ["ws", "sess1", UPLOAD_FOLDER_NAME]
          "../escape.txt" "x").2
        = ["ws", "sess1", "escape.txt"]
    ∧ ¬ (["ws", "sess1", UPLOAD_FOLDER_NAME]
          <+: (upload_file [] ["ws", "sess1", UPLOAD_FOLDER_NAME]
                "../escape.txt" "x").2)
    ∧ fsHas (upload_file [] ["ws", "sess1", UPLOAD_FOLDER_NAME]
          "../escape.txt" "x").1 ["ws", "sess1", "escape.txt"] = true := by
  refine ⟨?_, ?_, by decide, by decide, by decide⟩
  · intro fs dir fp content habs hnc
    simp [upload_file, habs, hnc]
  · intro fs dir fp content habs hnc
    simp [upload_file, habs, hnc]

/-- Witness for C9: an absolute path is collapsed to its base name; a
collision-free relative path with a subdirectory is joined verbatim. -/
theorem upload_relative_path_traversal_witness :
    (upload_file [] ["ws", "sess1", UPLOAD_FOLDER_NAME] "/etc/passwd" "x").2
      = resolveComps (["ws", "sess1", UPLOAD_FOLDER_NAME]
          ++ pathComponents (pathName "/etc/passwd"))
    ∧ (upload_file [] ["ws", "sess1", UPLOAD_FOLDER_NAME] "a/b.txt" "x").2
      = resolveComps (["ws", "sess1", UPLOAD_FOLDER_NAME]
          ++ pathComponents "a/b.txt") :=
  ⟨upload_relative_path_traversal.1 [] ["ws", "sess1", UPLOAD_FOLDER_NAME]
      "/etc/passwd" "x" (by decide) (by decide),
   upload_relative_path_traversal.2.1 []
      ["ws", "sess1", UPLOAD_FOLDER_NAME] "a/b.txt" "x"
      (by decide) (by decide)⟩

/-- Helper: the upsert of `create_session` always leaves a document keyed by
the composite id that is active and carries the call's identity pair. -/
theorem upsert_session_mem (now : Nat) (composite wsUuid wsPath : String)
    (u : String) (d : Option String) :
    ∀ db : SessionDB,
      ∃ doc ∈ upsert_session now composite wsUuid wsPath u d db,
        doc.id = composite ∧ doc.is_active = true ∧ doc.user_id = u
        ∧ doc.device_id = d ∧ doc.last_activated_at = now := by
  intro db
  induction db with
  | nil =>
    exact ⟨_, List.mem_singleton.mpr rfl, rfl, rfl, rfl, rfl, rfl⟩
  | cons x xs ih =>
    by_cases hx : (x.id == composite) = true
    · refine ⟨session_set_fields now u d wsUuid wsPath x, ?_, ?_, rfl, rfl,
        rfl, rfl⟩
      · simp [upsert_session, hx]
      · simpa [session_set_fields] using (beq_iff_eq.mp hx)
    · obtain ⟨doc, hmem, hprops⟩ := ih
      exact ⟨doc, by simp [upsert_session, hx, hmem], hprops⟩

/-- Concrete handshake data for the C3 counterexample: device `dev1`,
identity service answering 200 with user `u1`, an empty session store. -/
def c3Headers : Headers :=
  { authorization := some "tok", apiKey := none, clientKey := none,
    deviceId := some "dev1" }

/-- The expected context of that handshake. -/
def c3Ctx : ConnCtx :=
  { userId := "u1", deviceId := "dev1", composite := "u1_dev1",
    wsUuid := "wsid", wsPath := "/w/root" }

/-- C3 counterexample: the handshake for `u1`/`dev1` over an empty store
succeeds and hands the dispatch loop an unchanged empty store; the loop then
fully processes a client message (`ping`) while the store still holds no
Session document for the pair — the document is not created "as part of the
handshake itself, before the dispatch loop processes any client message". -/
theorem session_not_created_by_handshake :
    websocket_handshake c3Headers (.response 200 (.object (some "u1")))
        "wsid" "/w/root" []
      = .established c3Ctx { conn := initialConnState, db := [] }
          [.connectionEstablished "/w/root"]
    ∧ (handleMessage 0 c3Ctx { conn := initialConnState, db := [] }
        ClientMsg.ping).2 = [.send .pong]
    ∧ (handleMessage 0 c3Ctx { conn := initialConnState, db := [] }
        ClientMsg.ping).1.db = []
    ∧ countActive (handleMessage 0 c3Ctx { conn := initialConnState, db := [] }
        ClientMsg.ping).1.db "u1" (some "dev1") = 0 := by
  refine ⟨by decide, by decide, by decide, by decide⟩

/-- C3 as amended: the Session document for the connection's pair is created
(or reactivated) when the connection's first `init_agent` message is
dispatched — `create_agent_for_connection` calls `create_session` — not
during the handshake; after handling `init_agent` the store holds an active
document keyed by the composite session id with the connection's identity
pair. -/
theorem session_created_on_init_agent (now : Nat) (ctx : ConnCtx)
    (s : ServerState) :
    ∃ doc ∈ (handleMessage now ctx s ClientMsg.initAgent).1.db,
      doc.id = ctx.composite ∧ doc.is_active = true
      ∧ doc.user_id = ctx.userId ∧ doc.device_id = some ctx.deviceId
      ∧ doc.last_activated_at = now := by
  simpa [handleMessage, create_session] using
    upsert_session_mem now ctx.composite ctx.wsUuid ctx.wsPath ctx.userId
      (some ctx.deviceId)
      (deactivate_pair now ctx.userId (some ctx.deviceId) s.db)

/-- C5: disconnect cleanup detaches rather than destroys — the websocket is
removed from the connection set and the agent entry dropped, but the agent
object survives with only its delivery handle (`websocketAttached`) cleared
and its message processor flag untouched; the `message_processors` reference
is dropped without cancelling; a still-running task is cancelled and its
entry removed (a terminal one is left alone); and a second cleanup is a
no-op (idempotent), which also makes cleanup safe on partially-initialized
connections (every case of `agent`/`task` being absent is covered by the
universally quantified state). -/
theorem cleanup_detaches_cancels_idempotent (s : ConnState) :
    (cleanup_connection s).1.inConnections = false
    ∧ (cleanup_connection s).1.agent = none
    ∧ (s.agent ≠ none → (cleanup_connection s).1.hasProcessorRef = false)
    ∧ (∀ a, s.agent = some a →
        (cleanup_connection s).1.detachedAgents
          = s.detachedAgents ++ [{ a with websocketAttached := false }])
    ∧ (s.task = some .running →
        (cleanup_connection s).1.task = none
        ∧ (cleanup_connection s).2 = some .cancelled)
    ∧ (s.task ≠ some .running →
        (cleanup_connection s).1.task = s.task
        ∧ (cleanup_connection s).2 = none)
    ∧ cleanup_connection (cleanup_connection s).1
        = ((cleanup_connection s).1, none) := by
  obtain ⟨ic, ag, pr, tk, da⟩ := s
  rcases ag with _ | a <;> rcases tk with _ | t <;> try cases t <;>
    simp [cleanup_connection]
  all_goals simp [cleanup_connection]

/-- Witness for C5: cleanup of a fully-initialized connection (agent bound,
task running) detaches the agent and cancels the task. -/
theorem cleanup_detaches_cancels_idempotent_witness :
    (cleanup_connection
        { inConnections := true,
          agent := some { sessionId := "u1_dev1", userId := "u1",
                          deviceId := "dev1", websocketAttached := true,
                          processorRunning := true },
          hasProcessorRef := true, task := some .running,
          detachedAgents := [] }).1.agent = none
    ∧ (cleanup_connection
        { inConnections := true,
          agent := some { sessionId := "u1_dev1", userId := "u1",
                          deviceId := "dev1", websocketAttached := true,
                          processorRunning := true },
          hasProcessorRef := true, task := some .running,
          detachedAgents := [] }).1.hasProcessorRef = false
    ∧ (cleanup_connection
        { inConnections := true,
          agent := some { sessionId := "u1_dev1", userId := "u1",
                          deviceId := "dev1", websocketAttached := true,
                          processorRunning := true },
          hasProcessorRef := true, task := some .running,
          detachedAgents := [] }).1.detachedAgents
      = [{ sessionId := "u1_dev1", userId := "u1", deviceId := "dev1",
           websocketAttached := false, processorRunning := true }]
    ∧ (cleanup_connection
        { inConnections := true,
          agent := some { sessionId := "u1_dev1", userId := "u1",
                          deviceId := "dev1", websocketAttached := true,
                          processorRunning := true },
          hasProcessorRef := true, task := some .running,
          detachedAgents := [] }).2 = some .cancelled := by
  have h := cleanup_detaches_cancels_idempotent
    { inConnections := true,
      agent := some { sessionId := "u1_dev1", userId := "u1",
                      deviceId := "dev1", websocketAttached := true,
                      processorRunning := true },
      hasProcessorRef := true, task := some .running,
      detachedAgents := [] }
  exact ⟨h.2.1, h.2.2.1 (by decide), by
      simpa using h.2.2.2.1 _ rfl,
    (h.2.2.2.2.1 rfl).2⟩

/-! ## The one-active-session invariant (C2) -/

theorem countActive_nil (u : String) (d : Option String) :
    countActive [] u d = 0 := rfl

theorem countActive_cons (x : SessionDoc) (xs : SessionDB) (u : String)
    (d : Option String) :
    countActive (x :: xs) u d
      = (if activeFor u d x then 1 else 0) + countActive xs u d := by
  by_cases h : activeFor u d x = true
  · simp [countActive, List.filter_cons, h, Nat.add_comm]
  · simp [countActive, List.filter_cons, h]

/-- After step 1 of `create_session`, no session of the call's pair is
active. -/
theorem countActive_deactivate_self (now : Nat) (u : String)
    (d : Option String) :
    ∀ db : SessionDB, countActive (deactivate_pair now u d db) u d = 0 := by
  intro db
  induction db with
  | nil => rfl
  | cons x xs ih =>
    rw [show deactivate_pair now u d (x :: xs)
          = (if x.user_id == u && x.device_id == d && x.is_active then
              { x with is_active := false, deactivated_at := some now }
             else x) :: deactivate_pair now u d xs from rfl,
        countActive_cons, ih]
    by_cases h : (x.user_id == u && x.device_id == d && x.is_active) = true
    · simp [h, activeFor]
    · simp [h, activeFor]

/-- Step 1 of `create_session` does not touch the active sessions of any
other pair. -/
theorem countActive_deactivate_other (now : Nat) (u : String)
    (d : Option String) (u' : String) (d' : Option String)
    (hne : ¬(u = u' ∧ d = d')) :
    ∀ db : SessionDB,
      countActive (deactivate_pair now u d db) u' d'
        = countActive db u' d' := by
  intro db
  induction db with
  | nil => rfl
  | cons x xs ih =>
    rw [show deactivate_pair now u d (x :: xs)
          = (if x.user_id == u && x.device_id == d && x.is_active then
              { x with is_active := false, deactivated_at := some now }
             else x) :: deactivate_pair now u d xs from rfl,
        countActive_cons, countActive_cons, ih]
    congr 1
    by_cases h : (x.user_id == u && x.device_id == d && x.is_active) = true
    · simp only [h, if_true]
      have h2 := h
      simp only [Bool.and_eq_true, beq_iff_eq] at h2
      have hu : x.user_id = u := h2.1.1
      have hd : x.device_id = d := h2.1.2
      have hx : activeFor u' d' x = false := by
        rcases not_and_or.mp hne with h1 | h1 <;>
          simp [activeFor, hu, hd, beq_iff_eq, h1]
      have hx' : activeFor u' d'
          { x with is_active := false, deactivated_at := some now }
            = false := by
        simp [activeFor]
      simp [hx, hx']
    · simp [h]

/-- Step 2 of `create_session` on a store with no active session for the
call's pair leaves exactly one: the upserted document. -/
theorem countActive_upsert_self (now : Nat) (composite wsUuid wsPath : String)
    (u : String) (d : Option String) :
    ∀ db : SessionDB, countActive db u d = 0 →
      countActive (upsert_session now composite wsUuid wsPath u d db) u d
        = 1 := by
  intro db
  induction db with
  | nil =>
    intro _
    simp [upsert_session, countActive_cons, countActive_nil, activeFor]
  | cons x xs ih =>
    intro h0
    rw [countActive_cons] at h0
    have hx : activeFor u d x = false := by
      by_cases h : activeFor u d x = true
      · simp [h] at h0
      · exact Bool.not_eq_true _ ▸ Bool.of_not_eq_true h
    have hxs : countActive xs u d = 0 := by
      simp [hx] at h0
      exact h0
    by_cases hid : (x.id == composite) = true
    · rw [show upsert_session now composite wsUuid wsPath u d (x :: xs)
            = session_set_fields now u d wsUuid wsPath x :: xs by
          simp [upsert_session, hid],
        countActive_cons, hxs]
      simp [session_set_fields, activeFor]
    · rw [show upsert_session now composite wsUuid wsPath u d (x :: xs)
            = x :: upsert_session now composite wsUuid wsPath u d xs by
          simp [upsert_session, hid],
        countActive_cons, ih hxs, hx]
      simp

/-- Step 2 of `create_session` never increases the number of active
sessions of any other pair. -/
theorem countActive_upsert_other (now : Nat) (composite wsUuid wsPath : String)
    (u : String) (d : Option String) (u' : String) (d' : Option String)
    (hne : ¬(u = u' ∧ d = d')) :
    ∀ db : SessionDB,
      countActive (upsert_session now composite wsUuid wsPath u d db) u' d'
        ≤ countActive db u' d' := by
  intro db
  have hnew : ∀ doc : SessionDoc, doc.user_id = u → doc.device_id = d →
      activeFor u' d' doc = false := by
    intro doc h1 h2
    rcases not_and_or.mp hne with h3 | h3 <;>
      simp [activeFor, h1, h2, beq_iff_eq, h3]
  induction db with
  | nil =>
    simp [upsert_session, countActive_cons, countActive_nil]
    rw [hnew _ rfl rfl]
  | cons x xs ih =>
    by_cases hid : (x.id == composite) = true
    · rw [show upsert_session now composite wsUuid wsPath u d (x :: xs)
            = session_set_fields now u d wsUuid wsPath x :: xs by
          simp [upsert_session, hid],
        countActive_cons, countActive_cons,
        hnew (session_set_fields now u d wsUuid wsPath x) rfl rfl]
      simp
    · rw [show upsert_session now composite wsUuid wsPath u d (x :: xs)
            = x :: upsert_session now composite wsUuid wsPath u d xs by
          simp [upsert_session, hid],
        countActive_cons, countActive_cons]
      omega

/-- The store-wide invariant: at most one active session per identity
pair. -/
def ActiveInvariant (db : SessionDB) : Prop :=
  ∀ u d, countActive db u d ≤ 1

/-- One `create_session` call preserves the invariant. -/
theorem create_session_preserves_invariant (db : SessionDB) (now : Nat)
    (composite wsUuid wsPath : String) (u : String) (d : Option String)
    (h : ActiveInvariant db) :
    ActiveInvariant (create_session db now composite wsUuid wsPath u d) := by
  intro u' d'
  by_cases hp : u = u' ∧ d = d'
  · obtain ⟨rfl, rfl⟩ := hp
    have h1 := countActive_deactivate_self now u d db
    have h2 := countActive_upsert_self now composite wsUuid wsPath u d _ h1
    simp [create_session, h2]
  · calc countActive (create_session db now composite wsUuid wsPath u d) u' d'
        ≤ countActive (deactivate_pair now u d db) u' d' :=
          countActive_upsert_other now composite wsUuid wsPath u d u' d' hp _
      _ = countActive db u' d' :=
          countActive_deactivate_other now u d u' d' hp db
      _ ≤ 1 := h u' d'

/-- C2: starting from an empty store, after any sequence of sequentially
executed `create_session` calls, at most one Session document per
`(user_id, device_id)` pair has `is_active = true`. -/
theorem at_most_one_active_session (calls : List CreateSessionCall)
    (u : String) (d : Option String) :
    countActive (calls.foldl applyCreateSession []) u d ≤ 1 := by
  suffices h : ∀ db : SessionDB, ActiveInvariant db →
      ActiveInvariant (calls.foldl applyCreateSession db) by
    exact h [] (fun _ _ => Nat.zero_le 1) u d
  induction calls with
  | nil => intro db hdb; exact hdb
  | cons c cs ih =>
    intro db hdb
    exact ih _ (create_session_preserves_invariant db c.now c.composite
      c.wsUuid c.wsPath c.user_id c.device_id hdb)

end IIAgent
